import Mathlib

/-!
Shallow embedding of the `sdnotify` crate (src/lib.rs, src/async_await.rs,
src/async_io.rs): a client for the systemd notification protocol.

Conventions of the embedding:
* Rust byte strings and `String` payloads are modelled as `List Nat`
  (the UTF-8 bytes); the line-feed byte is `10`.
* `std::io::Error` is modelled by `IoError` (a kind plus its message);
  the crate's `Error` enum keeps its two variants `NoSocket` and `Io`.
* The operating system's effects are passed in explicitly: the outcome of
  `UnixDatagram::unbound()` is an `Except IoError Unit` argument, `connect`
  is a function from the destination path to its outcome, and a send
  syscall (`send_to` / `send`) is a function returning the byte count or
  an error.  A client operation returns the list of datagrams it handed to
  the transport (each one `List Nat`) together with its `Except` result,
  so that "no I/O was performed" is the trace being `[]`.
-/

namespace Sdnotify

/-- src/lib.rs: `enum InnerMessage { Ready, Status(String), Watchdog }`. -/
inductive InnerMessage where
  | ready : InnerMessage
  | status (s : List Nat) : InnerMessage
  | watchdog : InnerMessage
deriving DecidableEq, Repr

/-- src/lib.rs: `pub struct Message(InnerMessage)`. -/
structure Message where
  inner : InnerMessage
deriving DecidableEq, Repr

/-- The kinds of `std::io::Error` this crate produces or receives. -/
inductive IoErrorKind where
  | invalidData : IoErrorKind
  | connectionRefused : IoErrorKind
  | other : IoErrorKind
deriving DecidableEq, Repr

/-- `std::io::Error`: a kind together with its message. -/
structure IoError where
  kind : IoErrorKind
  msg : String
deriving DecidableEq, Repr

/-- The error built at src/lib.rs:65-68:
`std::io::Error::new(ErrorKind::InvalidData, "newline not allowed")`. -/
def invalidDataNewline : IoError := ⟨.invalidData, "newline not allowed"⟩

/-- src/lib.rs: `pub enum Error { NoSocket, Io(std::io::Error) }`. -/
inductive Error where
  | noSocket : Error
  | io (e : IoError) : Error
deriving DecidableEq, Repr

/-- `std::env::VarError`: the variable is absent, or set to a value that is
not valid Unicode. -/
inductive VarError where
  | notPresent : VarError
  | notUnicode : VarError
deriving DecidableEq, Repr

/-- src/lib.rs:103-107: `impl From<env::VarError> for Error` ignores the
variant and yields `Error::NoSocket`. -/
def Error.fromVarError (_ : VarError) : Error := .noSocket

/-- The state of the `NOTIFY_SOCKET` environment variable as `env::var`
distinguishes it: a Unicode value (given by its UTF-8 bytes) or a value
that is not valid Unicode.  `Option EnvValue` adds "unset". -/
inductive EnvValue where
  | unicode (s : List Nat) : EnvValue
  | nonUnicode : EnvValue
deriving DecidableEq, Repr

/-- `std::env::var("NOTIFY_SOCKET")`: `Err(NotPresent)` when unset,
`Err(NotUnicode)` when set but not Unicode, otherwise `Ok` with the value
(an empty value is a plain `Ok`). -/
def envVar : Option EnvValue → Except VarError (List Nat)
  | none => .error .notPresent
  | some .nonUnicode => .error .notUnicode
  | some (.unicode s) => .ok s

/-- src/lib.rs:58-60: `Message::ready()`. -/
def Message.ready : Message := ⟨.ready⟩

/-- src/lib.rs:63-71: `Message::status(status)` rejects a payload holding a
line-feed byte with an `InvalidData` I/O error, otherwise wraps it. -/
def Message.status (status : List Nat) : Except IoError Message :=
  if status.any (fun x => x == 10) then
    .error invalidDataNewline
  else
    .ok ⟨.status status⟩

/-- src/lib.rs:76-78: `Message::watchdog()`. -/
def Message.watchdog : Message := ⟨.watchdog⟩

/-- Outcome of one `send_to`/`send` syscall: bytes written, or an error. -/
abbrev SendOutcome := Except IoError Nat

/-- The OS for the blocking client: `send_to(payload, path)`. -/
abbrev Net := List Nat → List Nat → SendOutcome

/-- The OS for a connected socket: `send(payload)`. -/
abbrev ConnNet := List Nat → SendOutcome

/-- `send_to(..)?; Ok(())`: the byte count is dropped, errors propagate. -/
def sendResult : SendOutcome → Except IoError Unit
  | .error e => .error e
  | .ok _ => .ok ()

/-- src/lib.rs:117-120: the blocking client owns an (unbound) datagram
socket and the destination path; only the path is semantically relevant. -/
structure SdNotify where
  path : List Nat
deriving DecidableEq, Repr

/-- src/lib.rs:128-132: `SdNotify::from_path` allocates an unbound socket
(`unbound` is that syscall's outcome) and stores the caller's path
verbatim; it never touches the destination. -/
def SdNotify.from_path (unbound : Except IoError Unit) (p : List Nat) :
    Except Error SdNotify :=
  match unbound with
  | .error e => .error (.io e)
  | .ok _ => .ok ⟨p⟩

/-- src/lib.rs:123-126: `SdNotify::from_env` reads `NOTIFY_SOCKET` (the `?`
maps any `VarError` through `Error::fromVarError`) then calls `from_path`. -/
def SdNotify.from_env (unbound : Except IoError Unit)
    (env : Option EnvValue) : Except Error SdNotify :=
  match envVar env with
  | .error v => .error (Error.fromVarError v)
  | .ok sockname => SdNotify.from_path unbound sockname

/-- src/lib.rs:151-160: the private send primitive.  Encodes the message
(`b"READY=1"`, `format!("STATUS={}", status)`, `b"WATCHDOG=1"`) and hands
exactly that payload to one `send_to` on the stored path.  The first
component is the trace of datagrams handed to the transport. -/
def SdNotify.state (net : Net) (c : SdNotify) (m : Message) :
    List (List Nat) × Except IoError Unit :=
  match m.inner with
  | .ready =>
      ([[82, 69, 65, 68, 89, 61, 49]],
        sendResult (net [82, 69, 65, 68, 89, 61, 49] c.path))
  | .status s =>
      ([[83, 84, 65, 84, 85, 83, 61] ++ s],
        sendResult (net ([83, 84, 65, 84, 85, 83, 61] ++ s) c.path))
  | .watchdog =>
      ([[87, 65, 84, 67, 72, 68, 79, 71, 61, 49]],
        sendResult (net [87, 65, 84, 67, 72, 68, 79, 71, 61, 49] c.path))

/-- src/lib.rs:135-137: `notify_ready` = `state(Message::ready())`. -/
def SdNotify.notify_ready (net : Net) (c : SdNotify) :
    List (List Nat) × Except IoError Unit :=
  SdNotify.state net c Message.ready

/-- src/lib.rs:140-142: `set_status` = `state(Message::status(status)?)`;
the `?` returns the construction error before any send is reached. -/
def SdNotify.set_status (net : Net) (c : SdNotify) (status : List Nat) :
    List (List Nat) × Except IoError Unit :=
  match Message.status status with
  | .error e => ([], .error e)
  | .ok m => SdNotify.state net c m

/-- src/lib.rs:147-149: `ping_watchdog` = `state(Message::watchdog())`. -/
def SdNotify.ping_watchdog (net : Net) (c : SdNotify) :
    List (List Nat) × Except IoError Unit :=
  SdNotify.state net c Message.watchdog

namespace AsyncAwait

/-- src/async_await.rs:6-9: the tokio client owns only a socket, which
`from_path` has connected; its peer address is the socket's one datum. -/
structure SdNotify where
  peer : List Nat
deriving DecidableEq, Repr

/-- src/async_await.rs:17-21: `from_path` allocates an unbound socket and
connects it to the destination at open time; `connect` is that syscall's
outcome as a function of the path. -/
def SdNotify.from_path (unbound : Except IoError Unit)
    (connect : List Nat → Except IoError Unit) (p : List Nat) :
    Except Error SdNotify :=
  match unbound with
  | .error e => .error (.io e)
  | .ok _ =>
    match connect p with
    | .error e => .error (.io e)
    | .ok _ => .ok ⟨p⟩

/-- src/async_await.rs:12-15: read `NOTIFY_SOCKET`, then `from_path`. -/
def SdNotify.from_env (unbound : Except IoError Unit)
    (connect : List Nat → Except IoError Unit)
    (env : Option EnvValue) : Except Error SdNotify :=
  match envVar env with
  | .error v => .error (Error.fromVarError v)
  | .ok sockname => SdNotify.from_path unbound connect sockname

/-- src/async_await.rs:40-51: the send primitive on the connected socket,
`self.socket.send(..)` with the same three inline payloads. -/
def SdNotify.state (net : ConnNet) (_c : SdNotify) (m : Message) :
    List (List Nat) × Except IoError Unit :=
  match m.inner with
  | .ready =>
      ([[82, 69, 65, 68, 89, 61, 49]],
        sendResult (net [82, 69, 65, 68, 89, 61, 49]))
  | .status s =>
      ([[83, 84, 65, 84, 85, 83, 61] ++ s],
        sendResult (net ([83, 84, 65, 84, 85, 83, 61] ++ s)))
  | .watchdog =>
      ([[87, 65, 84, 67, 72, 68, 79, 71, 61, 49]],
        sendResult (net [87, 65, 84, 67, 72, 68, 79, 71, 61, 49]))

/-- src/async_await.rs:24-26. -/
def SdNotify.notify_ready (net : ConnNet) (c : SdNotify) :
    List (List Nat) × Except IoError Unit :=
  SdNotify.state net c Message.ready

/-- src/async_await.rs:29-31: `self.state(Message::status(status)?).await`. -/
def SdNotify.set_status (net : ConnNet) (c : SdNotify) (status : List Nat) :
    List (List Nat) × Except IoError Unit :=
  match Message.status status with
  | .error e => ([], .error e)
  | .ok m => SdNotify.state net c m

/-- src/async_await.rs:36-38. -/
def SdNotify.ping_watchdog (net : ConnNet) (c : SdNotify) :
    List (List Nat) × Except IoError Unit :=
  SdNotify.state net c Message.watchdog

end AsyncAwait

namespace AsyncIo

/-- src/async_io.rs:18-27: `Codec::encode` appends the message's payload to
the output buffer with `extend_from_slice` and always returns `Ok`. -/
def Codec.encode (item : Message) (bytes : List Nat) :
    Except IoError (List Nat) :=
  match item.inner with
  | .ready => .ok (bytes ++ [82, 69, 65, 68, 89, 61, 49])
  | .status s => .ok (bytes ++ ([83, 84, 65, 84, 85, 83, 61] ++ s))
  | .watchdog => .ok (bytes ++ [87, 65, 84, 67, 72, 68, 79, 71, 61, 49])

/-- src/async_io.rs:30-33: the sink client stores the destination path and
the framed (connected) socket; the path is the semantically relevant part. -/
structure SdNotify where
  path : List Nat
deriving DecidableEq, Repr

/-- src/async_io.rs:57-64: `from_path` allocates an unbound socket,
connects it to the destination at open time, and stores the path. -/
def SdNotify.from_path (unbound : Except IoError Unit)
    (connect : List Nat → Except IoError Unit) (p : List Nat) :
    Except Error SdNotify :=
  match unbound with
  | .error e => .error (.io e)
  | .ok _ =>
    match connect p with
    | .error e => .error (.io e)
    | .ok _ => .ok ⟨p⟩

/-- src/async_io.rs:52-55: read `NOTIFY_SOCKET`, then `from_path`. -/
def SdNotify.from_env (unbound : Except IoError Unit)
    (connect : List Nat → Except IoError Unit)
    (env : Option EnvValue) : Except Error SdNotify :=
  match envVar env with
  | .error v => .error (Error.fromVarError v)
  | .ok sockname => SdNotify.from_path unbound connect sockname

end AsyncIo

/-! ### Transport discipline

To compare open-time behaviour across the three variants we model the
destination's state as a predicate `d : List Nat → Bool` (whether a
`connect` to that path would succeed), local socket allocation as
succeeding, and ask whether construction succeeds. -/

/-- A `connect` syscall against destination state `d`: succeeds exactly on
the paths `d` accepts, otherwise `ECONNREFUSED`. -/
def destConnect (d : List Nat → Bool) (p : List Nat) :
    Except IoError Unit :=
  if d p then .ok () else .error ⟨.connectionRefused, "connection refused"⟩

/-- Whether an `Except` is a success. -/
def exceptOk {ε α : Type} : Except ε α → Bool
  | .ok _ => true
  | .error _ => false

/-- Open-time success of the blocking client (src/lib.rs `from_path`): it
performs no syscall on the destination, so the destination state `d` cannot
influence the outcome. -/
def openOkSync (_d : List Nat → Bool) (p : List Nat) : Bool :=
  exceptOk (SdNotify.from_path (.ok ()) p)

/-- Open-time success of the async/await client (src/async_await.rs
`from_path`), which connects to the destination at open time. -/
def openOkAsyncAwait (d : List Nat → Bool) (p : List Nat) : Bool :=
  exceptOk (AsyncAwait.SdNotify.from_path (.ok ()) (destConnect d) p)

/-- Open-time success of the sink client (src/async_io.rs `from_path`),
which connects to the destination at open time. -/
def openOkAsyncIo (d : List Nat → Bool) (p : List Nat) : Bool :=
  exceptOk (AsyncIo.SdNotify.from_path (.ok ()) (destConnect d) p)

/-- The connected discipline: construction succeeds exactly when the
destination is reachable (open-time failure if it is absent). -/
def attachesAtOpen (openOk : (List Nat → Bool) → List Nat → Bool) : Prop :=
  ∀ d p, openOk d p = d p

/-- The unconnected discipline: construction always succeeds, destination
errors being deferred to the first send. -/
def defersToSend (openOk : (List Nat → Bool) → List Nat → Bool) : Prop :=
  ∀ d p, openOk d p = true

/-- The spec's uniformity requirement: the three `from_path` constructors
all follow the connected discipline, or all follow the unconnected one. -/
def uniformDiscipline : Prop :=
  (attachesAtOpen openOkSync ∧ attachesAtOpen openOkAsyncAwait ∧
      attachesAtOpen openOkAsyncIo) ∨
    (defersToSend openOkSync ∧ defersToSend openOkAsyncAwait ∧
      defersToSend openOkAsyncIo)

/-- A `Message` value one of the three public constructors can produce. -/
def Constructible (m : Message) : Prop :=
  m = Message.ready ∨ m = Message.watchdog ∨
    ∃ s, Message.status s = .ok m

end Sdnotify

deriving instance DecidableEq for Except

namespace Sdnotify

/-! ### Helper lemmas -/

theorem status_any_of_mem {s : List Nat} (h : 10 ∈ s) :
    s.any (fun x => x == 10) = true :=
  List.any_eq_true.mpr ⟨10, h, rfl⟩

theorem status_any_of_not_mem {s : List Nat} (h : 10 ∉ s) :
    s.any (fun x => x == 10) = false := by
  rw [Bool.eq_false_iff]
  intro hta
  obtain ⟨x, hx, hb⟩ := List.any_eq_true.mp hta
  exact h (beq_iff_eq.mp hb ▸ hx)

/-- Inversion of a successful `Message::status`: the payload is wrapped
unchanged and holds no line-feed byte. -/
theorem mem_of_status_ok {s : List Nat} {m : Message}
    (h : Message.status s = .ok m) : m = ⟨.status s⟩ ∧ 10 ∉ s := by
  unfold Message.status at h
  by_cases hc : s.any (fun x => x == 10) = true
  · rw [if_pos hc] at h
    exact absurd h (by simp)
  · rw [if_neg hc] at h
    exact ⟨(Except.ok.inj h).symm, fun hm => hc (status_any_of_mem hm)⟩

/-! ### Claim theorems -/

/-- C1: every constructible message is encoded exactly as `READY=1`,
`STATUS=` followed by the status text verbatim, or `WATCHDOG=1` (the ASCII
bytes of those strings, with no trailing newline), and each send primitive
hands exactly that payload to the transport as one datagram — in the
blocking client, the async/await client, and the sink codec alike. -/
theorem wire_encoding_exact (c : SdNotify) (ca : AsyncAwait.SdNotify)
    (net : Net) (anet : ConnNet) :
    ((SdNotify.state net c Message.ready).1
        = ["READY=1".data.map Char.toNat]
      ∧ (AsyncAwait.SdNotify.state anet ca Message.ready).1
        = ["READY=1".data.map Char.toNat]
      ∧ AsyncIo.Codec.encode Message.ready []
        = .ok ("READY=1".data.map Char.toNat))
    ∧ (∀ s m, Message.status s = .ok m →
        (SdNotify.state net c m).1 = ["STATUS=".data.map Char.toNat ++ s]
        ∧ (AsyncAwait.SdNotify.state anet ca m).1
          = ["STATUS=".data.map Char.toNat ++ s]
        ∧ AsyncIo.Codec.encode m []
          = .ok ("STATUS=".data.map Char.toNat ++ s))
    ∧ ((SdNotify.state net c Message.watchdog).1
        = ["WATCHDOG=1".data.map Char.toNat]
      ∧ (AsyncAwait.SdNotify.state anet ca Message.watchdog).1
        = ["WATCHDOG=1".data.map Char.toNat]
      ∧ AsyncIo.Codec.encode Message.watchdog []
        = .ok ("WATCHDOG=1".data.map Char.toNat)) := by
  refine ⟨⟨rfl, rfl, rfl⟩, ?_, ⟨rfl, rfl, rfl⟩⟩
  intro s m h
  obtain ⟨hm, -⟩ := mem_of_status_ok h
  subst hm
  exact ⟨rfl, rfl, rfl⟩

/-- C1 witness: the status payload `hi` is sent as `STATUS=hi`. -/
theorem wire_encoding_exact_witness :
    (SdNotify.state (fun _ _ => .ok 0) ⟨[]⟩ ⟨.status [104, 105]⟩).1
      = ["STATUS=".data.map Char.toNat ++ [104, 105]] :=
  ((wire_encoding_exact ⟨[]⟩ ⟨[]⟩ (fun _ _ => .ok 0) (fun _ => .ok 0)).2.1
    [104, 105] ⟨.status [104, 105]⟩ (by decide)).1

/-- C2: `Message::status text` succeeds with `Status text` exactly when
`text` holds no line-feed byte, fails with the `InvalidData` ("invalid
payload") error when it does, and the send primitive itself never
validates: with an accepting transport it succeeds on any message. -/
theorem status_construction_iff (s : List Nat) :
    (10 ∉ s → Message.status s = .ok ⟨.status s⟩)
    ∧ (10 ∈ s → Message.status s = .error invalidDataNewline)
    ∧ (∀ c m, (SdNotify.state (fun _ _ => .ok 0) c m).2 = .ok ()) := by
  refine ⟨fun h => ?_, fun h => ?_, fun c m => ?_⟩
  · simp [Message.status, status_any_of_not_mem h]
  · simp [Message.status, status_any_of_mem h]
  · obtain ⟨im⟩ := m
    cases im <;> rfl

/-- C2 witness: a lone line feed is rejected at construction. -/
theorem status_construction_iff_witness :
    Message.status [10] = .error invalidDataNewline :=
  (status_construction_iff [10]).2.1 (by decide)

/-- C3 counterexample: with `NOTIFY_SOCKET` set to the empty string,
`env::var` succeeds, so the blocking `from_env` returns a client with the
empty path instead of the `NoSocket` error the claim requires. -/
theorem from_env_empty_value_not_noSocket :
    SdNotify.from_env (.ok ()) (some (.unicode [])) = .ok ⟨[]⟩
    ∧ SdNotify.from_env (.ok ()) (some (.unicode []))
      ≠ .error Error.noSocket := by
  exact ⟨rfl, by decide⟩

/-- C3 amended: `from_env` fails with `NoSocket` (in all three variants)
when `NOTIFY_SOCKET` is unset; an empty value, however, is accepted and
the blocking client is constructed with the empty path. -/
theorem from_env_unset_noSocket (u : Except IoError Unit)
    (connect : List Nat → Except IoError Unit) :
    SdNotify.from_env u none = .error .noSocket
    ∧ AsyncAwait.SdNotify.from_env u connect none = .error .noSocket
    ∧ AsyncIo.SdNotify.from_env u connect none = .error .noSocket
    ∧ SdNotify.from_env (.ok ()) (some (.unicode [])) = .ok ⟨[]⟩ :=
  ⟨rfl, rfl, rfl, rfl⟩

/-- C4 counterexample: the three `from_path` constructors do not share one
transport discipline.  Against an absent destination the blocking variant
still opens (it defers destination errors to the send) while the
async/await variant fails at open (it connects), so neither disjunct of
the uniformity requirement holds. -/
theorem discipline_not_uniform : ¬ uniformDiscipline := by
  intro h
  cases h with
  | inl h => exact absurd (h.1 (fun _ => false) []) (by decide)
  | inr h => exact absurd (h.2.1 (fun _ => false) []) (by decide)

/-- C4 amended: each variant applies one discipline uniformly — the
blocking client follows the unconnected discipline (open always succeeds,
destination errors deferred to the send), both suspend-capable clients
follow the connected discipline (open succeeds exactly when the
destination accepts a connect) — and the wire bytes produced are identical
regardless of discipline. -/
theorem per_variant_discipline :
    defersToSend openOkSync
    ∧ attachesAtOpen openOkAsyncAwait
    ∧ attachesAtOpen openOkAsyncIo
    ∧ ∀ (m : Message) (c : SdNotify) (ca : AsyncAwait.SdNotify)
        (net : Net) (anet : ConnNet),
        (SdNotify.state net c m).1 = (AsyncAwait.SdNotify.state anet ca m).1 := by
  refine ⟨fun d p => rfl, fun d p => ?_, fun d p => ?_,
    fun m c ca net anet => ?_⟩
  · unfold openOkAsyncAwait AsyncAwait.SdNotify.from_path destConnect exceptOk
    cases d p <;> simp
  · unfold openOkAsyncIo AsyncIo.SdNotify.from_path destConnect exceptOk
    cases d p <;> simp
  · obtain ⟨im⟩ := m
    cases im <;> rfl

/-- C5: `set_status` on a payload holding a line-feed byte fails with the
`InvalidData` ("invalid payload") error and hands no datagram to the
transport, in the blocking and the async/await client alike. -/
theorem set_status_newline_sends_nothing (c : SdNotify)
    (ca : AsyncAwait.SdNotify) (net : Net) (anet : ConnNet)
    (s : List Nat) (h : 10 ∈ s) :
    SdNotify.set_status net c s = ([], .error invalidDataNewline)
    ∧ AsyncAwait.SdNotify.set_status anet ca s
      = ([], .error invalidDataNewline) := by
  have hs : Message.status s = .error invalidDataNewline := by
    simp [Message.status, status_any_of_mem h]
  exact ⟨by simp [SdNotify.set_status, hs],
    by simp [AsyncAwait.SdNotify.set_status, hs]⟩

/-- C5 witness: `set_status` on the one-byte payload `\n` performs no
transport I/O. -/
theorem set_status_newline_sends_nothing_witness :
    SdNotify.set_status (fun _ _ => .ok 0) ⟨[]⟩ [10]
      = ([], .error invalidDataNewline) :=
  (set_status_newline_sends_nothing ⟨[]⟩ ⟨[]⟩ (fun _ _ => .ok 0)
    (fun _ => .ok 0) [10] (by decide)).1

/-- C6: every message the three constructors can produce is
wire-encodable: its payload is a single line (no line-feed byte), the
codec's encoding step is total and never fails, and the send primitive
never re-validates — with an accepting transport it succeeds. -/
theorem constructible_always_encodable (m : Message)
    (hm : Constructible m) :
    (∀ c net, 10 ∉ (SdNotify.state net c m).1.flatten)
    ∧ (∀ c, (SdNotify.state (fun _ _ => .ok 0) c m).2 = .ok ())
    ∧ (∀ buf, ∃ out, AsyncIo.Codec.encode m buf = .ok out) := by
  refine ⟨fun c net => ?_, fun c => ?_, fun buf => ?_⟩
  · rcases hm with h | h | ⟨s, hs⟩
    · subst h; simp [SdNotify.state, Message.ready]
    · subst h; simp [SdNotify.state, Message.watchdog]
    · obtain ⟨he, hn⟩ := mem_of_status_ok hs
      subst he
      simp [SdNotify.state, List.mem_append, hn]
  · rcases hm with h | h | ⟨s, hs⟩
    · subst h; rfl
    · subst h; rfl
    · obtain ⟨he, -⟩ := mem_of_status_ok hs
      subst he; rfl
  · obtain ⟨im⟩ := m
    cases im <;> exact ⟨_, rfl⟩

/-- C6 witness: `Message.ready` is constructible and sends cleanly. -/
theorem constructible_always_encodable_witness :
    (SdNotify.state (fun _ _ => .ok 0) ⟨[]⟩ Message.ready).2 = .ok () :=
  (constructible_always_encodable Message.ready (Or.inl rfl)).2.1 ⟨[]⟩

/-- C7: for every message, the bytes the blocking send hands to the
transport, the bytes the async/await send hands to the transport, and the
bytes the sink codec appends to its buffer are all equal. -/
theorem conventions_identical_bytes (m : Message) (c : SdNotify)
    (ca : AsyncAwait.SdNotify) (net : Net) (anet : ConnNet)
    (buf : List Nat) :
    (SdNotify.state net c m).1 = (AsyncAwait.SdNotify.state anet ca m).1
    ∧ AsyncIo.Codec.encode m buf
      = .ok (buf ++ (SdNotify.state net c m).1.flatten) := by
  obtain ⟨im⟩ := m
  cases im <;>
    simp [SdNotify.state, AsyncAwait.SdNotify.state, AsyncIo.Codec.encode,
      List.flatten]

/-- C8: each convenience operation of the blocking client equals the send
primitive applied to the corresponding constructor, `set_status`
surfacing the construction error exactly when the text holds a line-feed
byte. -/
theorem wrappers_are_thin (c : SdNotify) (net : Net) (s : List Nat) :
    SdNotify.notify_ready net c = SdNotify.state net c Message.ready
    ∧ SdNotify.ping_watchdog net c = SdNotify.state net c Message.watchdog
    ∧ (10 ∈ s → SdNotify.set_status net c s
        = ([], .error invalidDataNewline))
    ∧ (10 ∉ s → SdNotify.set_status net c s
        = SdNotify.state net c ⟨.status s⟩) := by
  refine ⟨rfl, rfl, fun h => ?_, fun h => ?_⟩
  · simp [SdNotify.set_status, Message.status, status_any_of_mem h]
  · simp [SdNotify.set_status, Message.status, status_any_of_not_mem h]

/-- C8 witness: `set_status` on the newline-free payload `h` is the send
primitive applied to the status constructor's result. -/
theorem wrappers_are_thin_witness :
    SdNotify.set_status (fun _ _ => .ok 0) ⟨[]⟩ [104]
      = SdNotify.state (fun _ _ => .ok 0) ⟨[]⟩ ⟨.status [104]⟩ :=
  (wrappers_are_thin ⟨[]⟩ (fun _ _ => .ok 0) [104]).2.2.2 (by decide)

/-- C9: the blocking `from_path` stores any caller-supplied path verbatim
and never touches the destination: it succeeds whenever the local socket
allocation does (for every destination state), and fails only with the
allocation's own error. -/
theorem from_path_verbatim_no_dest_check (p : List Nat) :
    SdNotify.from_path (.ok ()) p = .ok ⟨p⟩
    ∧ (∀ e, SdNotify.from_path (.error e) p = .error (.io e))
    ∧ (∀ d, openOkSync d p = true) :=
  ⟨rfl, fun _ => rfl, fun _ => rfl⟩

/-- C10: every failure of reading `NOTIFY_SOCKET` — absence and a
non-Unicode value alike — is mapped to the `NoSocket` error, never to an
I/O error, in all three variants. -/
theorem var_error_maps_to_noSocket :
    (∀ v, Error.fromVarError v = .noSocket)
    ∧ (∀ u, SdNotify.from_env u (some .nonUnicode) = .error .noSocket)
    ∧ (∀ u connect,
        AsyncAwait.SdNotify.from_env u connect (some .nonUnicode)
          = .error .noSocket)
    ∧ (∀ u connect,
        AsyncIo.SdNotify.from_env u connect (some .nonUnicode)
          = .error .noSocket) :=
  ⟨fun _ => rfl, fun _ => rfl, fun _ _ => rfl, fun _ _ => rfl⟩

end Sdnotify
